import Mathlib

/-!
Verification of the asynchronous dispatch core of open62541pp.

The development shallowly embeds the status/error model (ErrorHandling.h),
the completion-token model (async.h) and the client service adapter layer
(ClientService.h together with detail::ExceptionCatcher).  Machine integers
(`UA_StatusCode`, a 32-bit unsigned integer) are modelled as `Nat`; C++
exceptions are modelled by an explicit inductive type and fallible code
returns `Except`.
-/

namespace opcua

/-- `UA_STATUSCODE_GOOD` from open62541 statuscodes. -/
def UA_STATUSCODE_GOOD : Nat := 0x00000000

/-- `UA_STATUSCODE_BADUNEXPECTEDERROR` from open62541 statuscodes. -/
def UA_STATUSCODE_BADUNEXPECTEDERROR : Nat := 0x80010000

/-- `UA_STATUSCODE_BADINTERNALERROR` from open62541 statuscodes. -/
def UA_STATUSCODE_BADINTERNALERROR : Nat := 0x80020000

/-- `UA_STATUSCODE_BADDISCONNECT` from open62541 statuscodes. -/
def UA_STATUSCODE_BADDISCONNECT : Nat := 0x80AD0000

/--
C++ exceptions observable by this layer.  `badStatus c` embeds
`BadStatus(c)`; `badDisconnect` embeds the subclass `BadDisconnect`, whose
carried code is fixed to `UA_STATUSCODE_BADDISCONNECT` by its constructor;
`other what` embeds every exception outside the `BadStatus` hierarchy
(e.g. `std::runtime_error(what)`).
-/
inductive CppException where
  | badStatus (code : Nat)
  | badDisconnect
  | other (what : String)
deriving DecidableEq

/-- The status code carried by an exception of the `BadStatus` hierarchy
(`BadStatus::code()`); `BadDisconnect` always carries the disconnect code. -/
def CppException.carriedCode : CppException → Option Nat
  | .badStatus code => some code
  | .badDisconnect => some UA_STATUSCODE_BADDISCONNECT
  | .other _ => none

namespace detail

/-- `detail::isGood`: `(code >> 30U) == 0x00`. -/
def isGood (code : Nat) : Bool :=
  (code >>> 30) == 0x00

/-- `detail::isUncertain`: `(code >> 30U) == 0x01`. -/
def isUncertain (code : Nat) : Bool :=
  (code >>> 30) == 0x01

/-- `detail::isBad`: `(code >> 30U) >= 0x02`. -/
def isBad (code : Nat) : Bool :=
  decide (0x02 ≤ code >>> 30)

/--
`detail::getStatusCode(std::exception_ptr) noexcept`: a null exception
pointer (`none`) yields `UA_STATUSCODE_GOOD`; an exception of the
`BadStatus` hierarchy yields its carried code (`catch (const BadStatus&)`);
any other exception yields `UA_STATUSCODE_BADINTERNALERROR` (`catch (...)`).
-/
def getStatusCode : Option CppException → Nat
  | none => UA_STATUSCODE_GOOD
  | some (.badStatus code) => code
  | some .badDisconnect => UA_STATUSCODE_BADDISCONNECT
  | some (.other _) => UA_STATUSCODE_BADINTERNALERROR

end detail

/--
`throwIfBad(code)`: no-op unless `detail::isBad(code)`; then the `switch`
raises `BadDisconnect` for `UA_STATUSCODE_BADDISCONNECT` and
`BadStatus(code)` otherwise.  The raise is modelled by `Except.error`.
-/
def throwIfBad (code : Nat) : Except CppException Unit :=
  if detail.isBad code then
    if code = UA_STATUSCODE_BADDISCONNECT then
      .error .badDisconnect
    else
      .error (.badStatus code)
  else
    .ok ()

namespace detail

/--
Modelled from the spec: `detail::ExceptionCatcher` is declared in a detail
header that is not part of the provided sources (only its uses in
`tests/ClientService.cpp` are).  Per the spec it is a single-slot store for
one deferred failure.  The slot is the `exception` field.
-/
structure ExceptionCatcher where
  exception : Option CppException
deriving DecidableEq

/-- Modelled from the spec: `hasException()` is true iff the slot is occupied. -/
def ExceptionCatcher.hasException (c : ExceptionCatcher) : Bool :=
  c.exception.isSome

/-- Modelled from the spec: `store(currentException)` stores the given failure
only if the slot is empty; otherwise the new failure is discarded (first-wins). -/
def ExceptionCatcher.store (c : ExceptionCatcher) (e : CppException) : ExceptionCatcher :=
  if c.hasException then c else { exception := some e }

/-- Modelled from the spec: `rethrow()` clears the slot and re-raises the stored
failure; on an empty catcher it does nothing.  The returned pair is the new
catcher state and the raised failure, if any. -/
def ExceptionCatcher.rethrow (c : ExceptionCatcher) : ExceptionCatcher × Option CppException :=
  match c.exception with
  | some e => ({ exception := none }, some e)
  | none => (c, none)

/-- Modelled from the spec: `catchingExceptions(fn)` runs `fn`; on failure the
exception is stored via `store` instead of escaping.  `r` is the outcome of
running `fn`. -/
def ExceptionCatcher.catchingExceptions (c : ExceptionCatcher)
    (r : Except CppException Unit) : ExceptionCatcher :=
  match r with
  | .ok _ => c
  | .error e => c.store e

end detail

/--
The promise-fulfilling completion handler that
`AsyncResult<UseFutureToken, Result>::initiate` wraps around the promise:
a bad code sets the promise exception to `BadStatus(code)`, otherwise the
promise value is set to the forwarded result.  The `Except` value is the
state the promise is put into, hence what the returned future later yields.
-/
def futureWrappedCompletion {R : Type} (code : Nat) (result : R) :
    Except CppException R :=
  if detail.isBad code then .error (.badStatus code) else .ok result

/--
A concrete (non-deferred) completion token, as dispatched on by the
`AsyncResult` specialisations in async.h: `UseFutureToken`,
`UseDetachedToken`, or a callable token with signature
`void(StatusCode, Result)` (its possible failure is made explicit).
-/
inductive ConcreteToken (R : Type) where
  | useFuture
  | useDetached
  | callback (handler : Nat → R → Except CppException Unit)

/--
The value returned by one `AsyncResult<Token, Result>::initiate` dispatch:
the future token returns a future (modelled by its eventual value), the
detached token returns nothing, and a callable token returns nothing but
runs the callable (whose outcome is recorded).
-/
inductive InitiateOutcome (R : Type) where
  | future (value : Except CppException R)
  | unit
  | callbackRun (r : Except CppException Unit)

namespace AsyncResult

/--
`AsyncResult<Token, Result>::initiate(initiation, token, args...)` for a
concrete token.  The initiation (the transport submission) is modelled as a
function from the forwarded arguments to the `(code, result)` pair it
eventually delivers to the completion handler it is invoked with.  The
second component of the returned pair records each invocation of the
initiation with its argument: the future specialisation invokes it with the
promise-fulfilling wrapper, the detached specialisation with a completion
sink that discards all arguments, and a callable token is itself invoked as
the completion handler.
-/
def initiate {R A : Type} (token : ConcreteToken R) (initiation : A → Nat × R)
    (args : A) : InitiateOutcome R × List A :=
  match token with
  | .useFuture =>
      (.future (futureWrappedCompletion (initiation args).1 (initiation args).2), [args])
  | .useDetached => (.unit, [args])
  | .callback handler =>
      (.callbackRun (handler (initiation args).1 (initiation args).2), [args])

/--
`AsyncResult<UseDeferredToken, Result>::initiate(initiation, token, args...)`:
capture the initiation and the forwarded arguments without invoking
anything (the empty invocation record), and return a callable that, when
invoked with a concrete token, re-enters `AsyncResult<Token, Result>::initiate`
with the captured state.
-/
def initiateDeferred {R A : Type} (initiation : A → Nat × R) (args : A) :
    (ConcreteToken R → InitiateOutcome R × List A) × List A :=
  (fun token => initiate token initiation args, [])

end AsyncResult

namespace services.detail

/-- What one raw-callback invocation of the service adapter produces:
the `(status, result)` pair passed to the completion handler and the
exception catcher state after the invocation. -/
structure AdapterOutcome (R : Type) where
  status : Nat
  result : R
  catcher : opcua.detail.ExceptionCatcher

/--
Modelled from the spec: the raw callback built by
`services::detail::AsyncServiceAdapter<Response>::createCallbackAndContext`
in ClientService.h, which is not part of the provided sources; its
observable behaviour at the modelled points is pinned by
`tests/ClientService.cpp` ("AsyncServiceAdapter / createCallbackAndContext").
A null raw response (`none`) yields status `UA_STATUSCODE_BADUNEXPECTEDERROR`
(per the test "Response nullptr") and a default-constructed result; a
response for which the transform throws yields the status
`detail::getStatusCode` assigns to the thrown exception
(`UA_STATUSCODE_BADINTERNALERROR` for a `std::runtime_error`, per the test
"Exception in transform function") and a default-constructed result; a
successful transform yields `UA_STATUSCODE_GOOD` and the transform's value.
The completion handler is then invoked with that `(status, result)` pair
inside `catcher.catchingExceptions`, so a failure raised by the handler
itself is stored in the catcher instead of escaping into foreign code.
-/
def serviceCallback {ρ R : Type} [Inhabited R]
    (catcher : opcua.detail.ExceptionCatcher)
    (transform : ρ → Except CppException R)
    (handler : Nat → R → Except CppException Unit)
    (response : Option ρ) : AdapterOutcome R :=
  let statusResult : Nat × R :=
    match response with
    | none => (UA_STATUSCODE_BADUNEXPECTEDERROR, default)
    | some r =>
        match transform r with
        | .ok v => (UA_STATUSCODE_GOOD, v)
        | .error e => (opcua.detail.getStatusCode (some e), default)
  { status := statusResult.1
    result := statusResult.2
    catcher := catcher.catchingExceptions (handler statusResult.1 statusResult.2) }

/--
Modelled from the spec: the synchronous path of
`services::detail::sendRequest` (the `SyncOperation` token) in
ClientService.h, which is not part of the provided sources.  The spec
narrative (§4.5) describes it as the future path plus an internal pump, but
the repository's own test ("sendRequest / Sync / Exception in transform
function") pins the outcome: the transform's original exception
(`std::runtime_error("Error")`) propagates unchanged to the caller, which
is only possible if the synchronous path checks the service result via
`throwIfBad` and then invokes the transform directly, so it is modelled
that way; exceptions of either step propagate to the caller.
-/
def sendRequestSync {ρ R : Type} (serviceResult : Nat) (response : ρ)
    (transform : ρ → Except CppException R) : Except CppException R :=
  match throwIfBad serviceResult with
  | .error e => .error e
  | .ok _ => transform response

end services.detail

/--
Claim C8: for every 32-bit status code, exactly one of `isGood`,
`isUncertain`, `isBad` is true; `isGood` holds iff the top two bits are 00,
`isUncertain` iff they are 01, and `isBad` iff they are 10 or 11, so the
three severities partition the code space.
-/
theorem statusCode_severity_partition (code : Nat) (h : code < 4294967296) :
    ((detail.isGood code).toNat + (detail.isUncertain code).toNat
        + (detail.isBad code).toNat = 1) ∧
    (detail.isGood code = true ↔ code >>> 30 = 0) ∧
    (detail.isUncertain code = true ↔ code >>> 30 = 1) ∧
    (detail.isBad code = true ↔ code >>> 30 = 2 ∨ code >>> 30 = 3) := by
  have hdiv : code >>> 30 < 4 := by
    rw [Nat.shiftRight_eq_div_pow]
    exact Nat.div_lt_of_lt_mul (by norm_num; omega)
  have h4 : code >>> 30 = 0 ∨ code >>> 30 = 1 ∨ code >>> 30 = 2 ∨ code >>> 30 = 3 := by
    omega
  rcases h4 with h0 | h0 | h0 | h0 <;>
    simp [detail.isGood, detail.isUncertain, detail.isBad, h0]

/-- Witness for `statusCode_severity_partition` at the disconnect code. -/
theorem statusCode_severity_partition_witness :
    (0x80AD0000 : Nat) < 4294967296 ∧
    ((detail.isGood 0x80AD0000).toNat + (detail.isUncertain 0x80AD0000).toNat
        + (detail.isBad 0x80AD0000).toNat = 1) :=
  ⟨by norm_num, (statusCode_severity_partition 0x80AD0000 (by norm_num)).1⟩

/--
Claim C9: `throwIfBad(code)` returns normally when `isBad(code)` is false;
when `isBad(code)` is true it raises `BadDisconnect` exactly when `code`
equals `UA_STATUSCODE_BADDISCONNECT`, and the generic `BadStatus(code)`
otherwise.
-/
theorem throwIfBad_spec (code : Nat) :
    (throwIfBad code = .ok () ↔ detail.isBad code = false) ∧
    (throwIfBad code = .error .badDisconnect ↔
      detail.isBad code = true ∧ code = UA_STATUSCODE_BADDISCONNECT) ∧
    (throwIfBad code = .error (.badStatus code) ↔
      detail.isBad code = true ∧ code ≠ UA_STATUSCODE_BADDISCONNECT) := by
  unfold throwIfBad
  cases hb : detail.isBad code <;>
    by_cases hd : code = UA_STATUSCODE_BADDISCONNECT <;>
      simp [hb, hd]

/--
Claim C10: `detail::getStatusCode` maps an exception pointer to a status
code totally and without throwing: a null pointer yields the Good code, a
`BadStatus` exception yields the code it carries (so `BadDisconnect` yields
`UA_STATUSCODE_BADDISCONNECT`), and every other exception yields
`UA_STATUSCODE_BADINTERNALERROR`.
-/
theorem getStatusCode_spec :
    detail.getStatusCode none = UA_STATUSCODE_GOOD ∧
    (∀ c, detail.getStatusCode (some (.badStatus c)) = c) ∧
    detail.getStatusCode (some .badDisconnect) = UA_STATUSCODE_BADDISCONNECT ∧
    (∀ e, CppException.carriedCode e = none →
      detail.getStatusCode (some e) = UA_STATUSCODE_BADINTERNALERROR) := by
  refine ⟨rfl, fun _ => rfl, rfl, fun e he => ?_⟩
  cases e <;> simp_all [CppException.carriedCode, detail.getStatusCode]

/-- Witness for `getStatusCode_spec` on a `std::runtime_error`-style exception. -/
theorem getStatusCode_spec_witness :
    CppException.carriedCode (.other "Transform") = none ∧
    detail.getStatusCode (some (.other "Transform")) = UA_STATUSCODE_BADINTERNALERROR :=
  ⟨rfl, getStatusCode_spec.2.2.2 (.other "Transform") rfl⟩

/--
Claim C4: the `ExceptionCatcher` holds at most one stored failure:
`store` on an empty catcher occupies the slot with the given failure;
`store` on an occupied catcher discards the new failure (first-wins);
`rethrow` on an occupied catcher clears the slot and raises the stored
failure; `rethrow` on an empty catcher does nothing.
-/
theorem exceptionCatcher_spec (e e1 e2 : CppException) :
    (detail.ExceptionCatcher.mk none).hasException = false ∧
    (detail.ExceptionCatcher.mk (some e)).hasException = true ∧
    (detail.ExceptionCatcher.mk none).store e = ⟨some e⟩ ∧
    (detail.ExceptionCatcher.mk (some e1)).store e2 = ⟨some e1⟩ ∧
    (detail.ExceptionCatcher.mk (some e)).rethrow = (⟨none⟩, some e) ∧
    (detail.ExceptionCatcher.mk none).rethrow = (⟨none⟩, none) := by
  refine ⟨rfl, rfl, ?_, ?_, rfl, rfl⟩ <;>
    simp [detail.ExceptionCatcher.store, detail.ExceptionCatcher.hasException]

/--
Claim C6: `AsyncResult<UseFutureToken, Result>::initiate` invokes the
initiation once with the promise-fulfilling wrapped completion handler and
returns the future; when the wrapped completion is called with status code
`code`, the promise is failed with a `BadStatus(code)` failure if
`isBad(code)`, and fulfilled with the forwarded result otherwise.
-/
theorem asyncResult_future_spec {R A : Type} (initiation : A → Nat × R)
    (args : A) (code : Nat) (result : R) :
    AsyncResult.initiate .useFuture initiation args =
      (.future (futureWrappedCompletion (initiation args).1 (initiation args).2),
        [args]) ∧
    (detail.isBad code = true →
      futureWrappedCompletion code result = .error (.badStatus code)) ∧
    (detail.isBad code = false →
      futureWrappedCompletion code result = .ok result) := by
  refine ⟨rfl, fun hb => ?_, fun hg => ?_⟩
  · simp [futureWrappedCompletion, hb]
  · simp [futureWrappedCompletion, hg]

/-- Witness for `asyncResult_future_spec` on one bad and one good code. -/
theorem asyncResult_future_spec_witness :
    detail.isBad 0x80340000 = true ∧
    detail.isBad 0x00000000 = false ∧
    futureWrappedCompletion 0x80340000 (7 : Nat) = .error (.badStatus 0x80340000) ∧
    futureWrappedCompletion 0x00000000 (7 : Nat) = .ok 7 :=
  ⟨by decide, by decide,
    (asyncResult_future_spec (fun n : Nat => (0x80340000, n)) 7 0x80340000 7).2.1
      (by decide),
    (asyncResult_future_spec (fun n : Nat => (0, n)) 7 0 7).2.2 (by decide)⟩

/--
Claim C7: `AsyncResult<UseDeferredToken, Result>::initiate` invokes nothing
itself (its invocation record is empty) and returns a callable capturing
the initiation and arguments; invoking that callable with a concrete token
produces exactly the dispatch of `AsyncResult<Token, Result>::initiate` on
the captured initiation and arguments.
-/
theorem asyncResult_deferred_spec {R A : Type} (initiation : A → Nat × R) (args : A) :
    (AsyncResult.initiateDeferred initiation args).2 = [] ∧
    ∀ token : ConcreteToken R,
      (AsyncResult.initiateDeferred initiation args).1 token =
        AsyncResult.initiate token initiation args :=
  ⟨rfl, fun _ => rfl⟩

/--
Claim C5: a raw callback invocation with a non-null response in which both
the transform and the completion handler return normally passes status
`UA_STATUSCODE_GOOD` and the transform's value to the completion handler,
and leaves the `ExceptionCatcher` unchanged (in particular still empty).
-/
theorem serviceAdapter_success_spec {ρ R : Type} [Inhabited R]
    (catcher : detail.ExceptionCatcher) (transform : ρ → Except CppException R)
    (handler : Nat → R → Except CppException Unit) (r : ρ) (v : R)
    (hcat : catcher.hasException = false)
    (ht : transform r = .ok v)
    (hh : handler UA_STATUSCODE_GOOD v = .ok ()) :
    services.detail.serviceCallback catcher transform handler (some r) =
      ⟨UA_STATUSCODE_GOOD, v, catcher⟩ ∧
    (services.detail.serviceCallback catcher transform handler (some r)).catcher.hasException
      = false := by
  have hmain :
      services.detail.serviceCallback catcher transform handler (some r) =
        ⟨UA_STATUSCODE_GOOD, v, catcher⟩ := by
    simp [services.detail.serviceCallback, ht, hh,
      detail.ExceptionCatcher.catchingExceptions]
  exact ⟨hmain, by rw [hmain]; exact hcat⟩

/-- Witness for `serviceAdapter_success_spec`, mirroring the repository test
(`response = 5`, identity transform, recording handler). -/
theorem serviceAdapter_success_spec_witness :
    services.detail.serviceCallback (ρ := Nat) (R := Nat) ⟨none⟩
        (fun x => .ok x) (fun _ _ => .ok ()) (some 5) =
      ⟨UA_STATUSCODE_GOOD, 5, ⟨none⟩⟩ :=
  (serviceAdapter_success_spec ⟨none⟩ (fun x => .ok x) (fun _ _ => .ok ())
    5 5 rfl rfl rfl).1

/--
Claim C3: when the completion handler itself throws, the status and result
passed to it are the ones determined before it ran (Good and the
transform's value when the transform succeeded); the handler's exception is
not converted into a status but stored in the `ExceptionCatcher`, so
afterwards `hasException()` is true and `rethrow()` raises that original
failure.
-/
theorem serviceAdapter_handler_throws_spec {ρ R : Type} [Inhabited R]
    (catcher : detail.ExceptionCatcher) (transform : ρ → Except CppException R)
    (handler : Nat → R → Except CppException Unit) (r : ρ) (v : R) (e : CppException)
    (hcat : catcher = ⟨none⟩)
    (ht : transform r = .ok v)
    (hh : handler UA_STATUSCODE_GOOD v = .error e) :
    services.detail.serviceCallback catcher transform handler (some r) =
      ⟨UA_STATUSCODE_GOOD, v, ⟨some e⟩⟩ ∧
    (services.detail.serviceCallback catcher transform handler (some r)).catcher.hasException
      = true ∧
    (services.detail.serviceCallback catcher transform handler (some r)).catcher.rethrow
      = (⟨none⟩, some e) := by
  subst hcat
  have hmain :
      services.detail.serviceCallback (⟨none⟩ : detail.ExceptionCatcher)
          transform handler (some r) =
        ⟨UA_STATUSCODE_GOOD, v, ⟨some e⟩⟩ := by
    simp [services.detail.serviceCallback, ht, hh,
      detail.ExceptionCatcher.catchingExceptions, detail.ExceptionCatcher.store,
      detail.ExceptionCatcher.hasException]
  rw [hmain]
  exact ⟨rfl, rfl, rfl⟩

/-- Witness for `serviceAdapter_handler_throws_spec`, mirroring the repository
test (identity transform succeeds with 5, handler throws
`std::runtime_error("CompletionHandler")`). -/
theorem serviceAdapter_handler_throws_spec_witness :
    services.detail.serviceCallback (ρ := Nat) (R := Nat) ⟨none⟩
        (fun x => .ok x) (fun _ _ => .error (.other "CompletionHandler")) (some 5) =
      ⟨UA_STATUSCODE_GOOD, 5, ⟨some (.other "CompletionHandler")⟩⟩ :=
  (serviceAdapter_handler_throws_spec ⟨none⟩ (fun x => .ok x)
    (fun _ _ => .error (.other "CompletionHandler")) 5 5
    (.other "CompletionHandler") rfl rfl rfl).1

/--
Counterexample to claim C1: with the identical transform failure used by
the repository test, a null raw response yields status
`UA_STATUSCODE_BADUNEXPECTEDERROR` while a transform exception yields
`UA_STATUSCODE_BADINTERNALERROR`; the two status codes differ, so the two
failure causes are not indistinguishable to the completion handler.
-/
theorem serviceAdapter_null_vs_transform_cex :
    (services.detail.serviceCallback (ρ := Nat) (R := Nat) ⟨none⟩
        (fun _ => .error (.other "Transform")) (fun _ _ => .ok ()) none).status
      = UA_STATUSCODE_BADUNEXPECTEDERROR ∧
    (services.detail.serviceCallback (ρ := Nat) (R := Nat) ⟨none⟩
        (fun _ => .error (.other "Transform")) (fun _ _ => .ok ()) (some 5)).status
      = UA_STATUSCODE_BADINTERNALERROR ∧
    UA_STATUSCODE_BADUNEXPECTEDERROR ≠ UA_STATUSCODE_BADINTERNALERROR :=
  ⟨rfl, rfl, by decide⟩

/--
Claim C1 as amended: a null raw response yields the fixed status
`UA_STATUSCODE_BADUNEXPECTEDERROR`, while a transform exception yields the
status `detail::getStatusCode` assigns to the thrown exception —
`UA_STATUSCODE_BADINTERNALERROR` for an exception outside the `BadStatus`
hierarchy (as in the repository test) and the carried code for a thrown
`BadStatus`.  Both causes deliver a default-constructed result and leave
the catcher unchanged, but they are not indistinguishable: a null response
and a non-`BadStatus` transform exception reach the completion handler with
different status codes.
-/
theorem serviceAdapter_failure_statuses_spec {ρ R : Type} [Inhabited R]
    (catcher : detail.ExceptionCatcher) (transform : ρ → Except CppException R)
    (handler : Nat → R → Except CppException Unit) (r : ρ) (e : CppException)
    (ht : transform r = .error e)
    (hnull : handler UA_STATUSCODE_BADUNEXPECTEDERROR default = .ok ())
    (hthrow : handler (detail.getStatusCode (some e)) default = .ok ()) :
    services.detail.serviceCallback catcher transform handler none =
      ⟨UA_STATUSCODE_BADUNEXPECTEDERROR, default, catcher⟩ ∧
    services.detail.serviceCallback catcher transform handler (some r) =
      ⟨detail.getStatusCode (some e), default, catcher⟩ ∧
    (∀ what, detail.getStatusCode (some (.other what)) = UA_STATUSCODE_BADINTERNALERROR) ∧
    (∀ c, detail.getStatusCode (some (.badStatus c)) = c) ∧
    detail.isBad UA_STATUSCODE_BADUNEXPECTEDERROR = true ∧
    detail.isBad UA_STATUSCODE_BADINTERNALERROR = true ∧
    UA_STATUSCODE_BADUNEXPECTEDERROR ≠ UA_STATUSCODE_BADINTERNALERROR := by
  refine ⟨?_, ?_, fun _ => rfl, fun _ => rfl, by decide, by decide, by decide⟩ <;>
    simp [services.detail.serviceCallback, ht, hnull, hthrow,
      detail.ExceptionCatcher.catchingExceptions]

/-- Witness for `serviceAdapter_failure_statuses_spec` at the repository
test's inputs (transform throws `std::runtime_error("Transform")`). -/
theorem serviceAdapter_failure_statuses_spec_witness :
    services.detail.serviceCallback (ρ := Nat) (R := Nat) ⟨none⟩
        (fun _ => .error (.other "Transform")) (fun _ _ => .ok ()) (some 5) =
      ⟨UA_STATUSCODE_BADINTERNALERROR, default, ⟨none⟩⟩ :=
  (serviceAdapter_failure_statuses_spec ⟨none⟩
    (fun _ => .error (.other "Transform")) (fun _ _ => .ok ()) 5
    (.other "Transform") rfl rfl rfl).2.1

/--
Counterexample to claim C2: on the synchronous path with a good service
result, a transform that throws `std::runtime_error("Error")` makes the
call raise that original exception, which is not a `BadStatus` carrying
`UA_STATUSCODE_BADINTERNALERROR`; the original exception type is
preserved, contrary to the claim.
-/
theorem sendRequestSync_original_exception_cex :
    services.detail.sendRequestSync UA_STATUSCODE_GOOD (5 : Nat)
        (fun _ => (.error (.other "Error") : Except CppException Nat))
      = .error (.other "Error") ∧
    (CppException.other "Error") ≠ (.badStatus UA_STATUSCODE_BADINTERNALERROR) :=
  ⟨rfl, by decide⟩

/--
Claim C2 as amended: for every synchronous-path request whose service
result is not bad and whose transform throws, the call raises the
transform's original exception unchanged; it is not converted into a
generic `BadStatus` failure.
-/
theorem sendRequestSync_preserves_transform_exception {ρ R : Type}
    (serviceResult : Nat) (response : ρ)
    (transform : ρ → Except CppException R) (e : CppException)
    (hs : detail.isBad serviceResult = false)
    (ht : transform response = .error e) :
    services.detail.sendRequestSync serviceResult response transform = .error e := by
  have h1 : throwIfBad serviceResult = Except.ok () := by
    unfold throwIfBad
    simp [hs]
  unfold services.detail.sendRequestSync
  rw [h1]
  exact ht

/-- Witness for `sendRequestSync_preserves_transform_exception` at a
concrete request. -/
theorem sendRequestSync_preserves_transform_exception_witness :
    services.detail.sendRequestSync UA_STATUSCODE_GOOD (3 : Nat)
        (fun _ => (.error (.other "Boom") : Except CppException Nat))
      = .error (.other "Boom") :=
  sendRequestSync_preserves_transform_exception UA_STATUSCODE_GOOD 3
    (fun _ => .error (.other "Boom")) (.other "Boom") (by decide) rfl

end opcua
